import Mathlib

/-!
A shallow embedding of the document lifecycle and retrieval-query pipeline of the
RAG chatbot backend: `utils/pdf_loader.py` (PDFLoader), `g_chain.py` (RAGChain),
`document_handler.py` (DocumentHandler) and the `/query` endpoint of `main.py`.
External effects (PDF text extraction, the LangChain text splitter, OpenAI calls,
filesystem faults) are passed in as explicit parameters describing the outcome of
each external call, and the embedding mirrors the repository's control flow on
those outcomes.
-/

/-- Python whitespace predicate used by `str.strip` (the ASCII whitespace
characters: space, tab, newline, carriage return, vertical tab, form feed). -/
def pyIsSpace (c : Char) : Bool :=
  c = ' ' || c = Char.ofNat 9 || c = Char.ofNat 10 || c = Char.ofNat 13 ||
    c = Char.ofNat 11 || c = Char.ofNat 12

/-- Python `s.strip()`: drop leading and trailing whitespace characters. -/
def pyStrip (s : String) : String :=
  String.mk (((s.toList.dropWhile pyIsSpace).reverse.dropWhile pyIsSpace).reverse)

/-- One value of `DocumentHandler.processed_docs`: the per-document record built
at document_handler.py lines 47-52. -/
structure DocInfo where
  file_path : String
  vectorstore_path : String
  chunks_count : Nat
  status : String
  deriving Repr, DecidableEq

/-- The registry `processed_docs`: a Python dict from filename to record,
modelled as an insertion-ordered association list with unique keys. -/
abbrev Registry := List (String × DocInfo)

/-- Python `d[k]` lookup (also `k in d` via `isSome`). -/
def dictLookup (d : Registry) (k : String) : Option DocInfo :=
  match d with
  | [] => none
  | (k2, v) :: rest => if k2 = k then some v else dictLookup rest k

/-- Python `d[k] = v`: an existing key is updated in place and keeps its position
in the insertion order; a new key is appended at the end. -/
def dictInsert (d : Registry) (k : String) (v : DocInfo) : Registry :=
  match d with
  | [] => [(k, v)]
  | (k2, v2) :: rest =>
      if k2 = k then (k2, v) :: rest else (k2, v2) :: dictInsert rest k v

/-- Python `del d[k]`: removes the (unique) entry with key `k`. -/
def dictErase (d : Registry) (k : String) : Registry :=
  match d with
  | [] => []
  | (k2, v) :: rest => if k2 = k then rest else (k2, v) :: dictErase rest k

/-- Python `list(d.keys())` in insertion order. -/
def dictKeys (d : Registry) : List String := d.map Prod.fst

/-- The filesystem apart from the metadata artifact: the set of existing paths
(uploaded sources and pickled vectorstores). -/
abbrev FileSet := List String

/-- Create a file at `p` (overwriting keeps the set unchanged). -/
def fsAdd (fs : FileSet) (p : String) : FileSet := if p ∈ fs then fs else fs ++ [p]

/-- Remove the file at `p` when present. -/
def fsRemove (fs : FileSet) (p : String) : FileSet := fs.filter (fun q => decide (q ≠ p))

/-- The observable state of a `DocumentHandler` plus the disk artifacts: the
in-memory dict `processed_docs`, the content of the persisted metadata artifact
`vectorstore/processed_docs_metadata.pkl` (the empty mapping when the artifact is
absent), and the set of other files on disk. -/
structure World where
  docs : Registry
  meta : Registry
  files : FileSet
  deriving Repr, DecidableEq

/-- A fresh handler with an empty metadata artifact and no files. -/
def initialWorld : World := ⟨[], [], []⟩

/-- `PDFLoader.split_text_into_chunks` (pdf_loader.py lines 67-89).  The external
`RecursiveCharacterTextSplitter.split_text` is the parameter `rawSplit`; the
method keeps only chunks whose trimmed length exceeds 50 (line 73). -/
def split_text_into_chunks (rawSplit : String → List String) (text : String) :
    List String :=
  (rawSplit text).filter (fun c => decide ((pyStrip c).length > 50))

/-- `PDFLoader.load_and_split` (pdf_loader.py lines 91-115), with the text
returned by the external `extract_text_from_pdf` call given as `extractedText`:
whitespace-only text yields `[]` (line 99-101), an empty chunk list yields `[]`
(lines 106-108). -/
def load_and_split (rawSplit : String → List String) (extractedText : String) :
    List String :=
  if pyStrip extractedText = "" then []
  else
    let chunks := split_text_into_chunks rawSplit extractedText
    if chunks.isEmpty then [] else chunks

/-- Message of the `ValueError` raised for `AuthenticationError` (g_chain.py). -/
def authFailMsg : String := "OpenAI authentication failed. Please check your API key."

/-- Message of the `ValueError` raised for `RateLimitError` (g_chain.py). -/
def quotaFailMsg : String := "OpenAI quota exceeded. Please try again later."

/-- Message of the `ValueError` raised for a generic `OpenAIError` (g_chain.py). -/
def serviceFailMsg : String := "OpenAI service error. Please try again later."

/-- Outcome of the external work inside `RAGChain.create_vectorstore`: the
`FAISS.from_documents` embedding call and the pickle write. -/
inductive VsOutcome
  | ok
  | authError
  | rateLimitError
  | openaiError
  | otherExc
  deriving Repr, DecidableEq

/-- Result of `RAGChain.create_vectorstore` (g_chain.py lines 54-83): `True`,
`False` (any unclassified exception), or a raised `ValueError` carrying the
classified provider failure (re-raised as-is by the outer handler). -/
inductive VsResult
  | retTrue
  | retFalse
  | raisedValueError (msg : String)
  deriving Repr, DecidableEq

/-- The control flow of `RAGChain.create_vectorstore` on the external outcome. -/
def create_vectorstore : VsOutcome → VsResult
  | .ok => .retTrue
  | .authError => .raisedValueError authFailMsg
  | .rateLimitError => .raisedValueError quotaFailMsg
  | .openaiError => .raisedValueError serviceFailMsg
  | .otherExc => .retFalse

/-- One caller-facing source entry built in `RAGChain.query` (g_chain.py lines
116-121).  The `metadata` mapping is omitted: documents are built with content
only, so it is always the empty mapping. -/
structure SourceEntry where
  content : String
  deriving Repr, DecidableEq

/-- The truncation applied at g_chain.py line 119: `page_content[:200] + "..."`
when the content is longer than 200 characters, the content itself otherwise. -/
def truncateSource (content : String) : String :=
  if content.length > 200 then String.mk (content.toList.take 200) ++ "..." else content

/-- Outcome of the external retrieval-plus-generation call
`qa_chain({"query": question})` inside `RAGChain.query`: the answer together
with the retrieved source documents, or one of the classified provider
failures, or any other exception. -/
inductive RagOutcome
  | retrieved (answer : String) (sourceDocs : List String)
  | authError
  | rateLimitError
  | openaiError
  | otherExc (msg : String)
  deriving Repr, DecidableEq

/-- Result of `RAGChain.query` (g_chain.py lines 85-134): the answer and the
truncated sources, or a raised exception (`ValueError` for classified provider
failures, anything else re-raised unchanged). -/
inductive RagResult
  | ok (answer : String) (sources : List SourceEntry)
  | raisedValueError (msg : String)
  | raisedOther (msg : String)
  deriving Repr, DecidableEq

/-- The control flow of `RAGChain.query` on the external call outcome. -/
def ragQuery : RagOutcome → RagResult
  | .retrieved ans docs => .ok ans (docs.map (fun c => ⟨truncateSource c⟩))
  | .authError => .raisedValueError authFailMsg
  | .rateLimitError => .raisedValueError quotaFailMsg
  | .openaiError => .raisedValueError serviceFailMsg
  | .otherExc m => .raisedOther m

/-- Environment of one `process_document` call: the outcome of text extraction,
the external splitter, the embedding-call outcome, and whether the metadata
pickle write inside `_save_metadata` succeeds. -/
structure ProcessEnv where
  extractedText : String
  rawSplit : String → List String
  vs : VsOutcome
  saveOk : Bool

/-- Result of `DocumentHandler.process_document`: `True`, `False`, or a
propagated `ValueError` (document_handler.py lines 60-63). -/
inductive ProcessResult
  | success
  | failure
  | raisedValueError (msg : String)
  deriving Repr, DecidableEq

/-- The vectorstore path chosen at document_handler.py line 43. -/
def vectorstorePathFor (filename : String) : String :=
  "vectorstore/" ++ filename ++ "_vectorstore.pkl"

/-- `DocumentHandler._save_metadata` (document_handler.py lines 104-112): writes
the whole registry to the metadata artifact; an exception during the write is
logged and swallowed, leaving the artifact as it was. -/
def saveMetadata (w : World) (saveOk : Bool) : World :=
  if saveOk then { w with meta := w.docs } else w

/-- `DocumentHandler.process_document` (document_handler.py lines 29-66). -/
def process_document (w : World) (file_path : String) (filename : String)
    (env : ProcessEnv) : ProcessResult × World :=
  let text_chunks := load_and_split env.rawSplit env.extractedText
  if text_chunks.isEmpty then (.failure, w)
  else
    match create_vectorstore env.vs with
    | .retTrue =>
        let w1 : World :=
          { docs := dictInsert w.docs filename
              ⟨file_path, vectorstorePathFor filename, text_chunks.length, "processed"⟩,
            meta := w.meta,
            files := fsAdd w.files (vectorstorePathFor filename) }
        (.success, saveMetadata w1 env.saveOk)
    | .retFalse => (.failure, w)
    | .raisedValueError m => (.raisedValueError m, w)

/-- Python truthiness of the optional `filename` argument: `None` and the empty
string are falsy. -/
def pyTruthy : Option String → Bool
  | none => false
  | some s => !(decide (s = ""))

/-- Lines 74-76 of document_handler.py: when no truthy filename was given and the
registry is non-empty, target the last inserted key. -/
def resolveTarget (docs : Registry) (filename : Option String) : Option String :=
  if !(pyTruthy filename) && !(docs.isEmpty) then (dictKeys docs).getLast? else filename

/-- Result of `DocumentHandler.query_document`: the response dict, or a raised
`ValueError` for an unknown document (line 79), a raised `FileNotFoundError` for
a missing vectorstore artifact (line 83), or a re-raised provider exception. -/
inductive QueryOutcome
  | ok (answer : String) (sources : List SourceEntry) (document : String)
  | raisedNotFound (available : List String)
  | raisedFileNotFound (document : String)
  | raisedValueError (msg : String)
  | raisedOther (msg : String)
  deriving Repr, DecidableEq

/-- `DocumentHandler.query_document` after the lazy `_load_metadata` step
(document_handler.py lines 74-96): resolve the target, check presence in the
registry, check the vectorstore artifact exists, then delegate to
`RAGChain.query`; every exception is re-raised. -/
def queryLoaded (w : World) (filename : Option String) (rag : RagOutcome) :
    QueryOutcome × World :=
  match resolveTarget w.docs filename with
  | none => (.raisedNotFound (dictKeys w.docs), w)
  | some f =>
    if f = "" then (.raisedNotFound (dictKeys w.docs), w)
    else
      match dictLookup w.docs f with
      | none => (.raisedNotFound (dictKeys w.docs), w)
      | some info =>
        if info.vectorstore_path ∈ w.files then
          match ragQuery rag with
          | .ok ans srcs => (.ok ans srcs f, w)
          | .raisedValueError m => (.raisedValueError m, w)
          | .raisedOther m => (.raisedOther m, w)
        else (.raisedFileNotFound f, w)

/-- `DocumentHandler.query_document` (document_handler.py lines 68-96), with the
lazy `_load_metadata` of lines 71-72: when the in-memory dict is empty it is
replaced by the metadata artifact's content.  The `question` string is passed
through to the provider and does not influence the control flow, so it is not a
parameter here. -/
def query_document (w : World) (filename : Option String) (rag : RagOutcome) :
    QueryOutcome × World :=
  queryLoaded ⟨if w.docs.isEmpty then w.meta else w.docs, w.meta, w.files⟩ filename rag

/-- Environment of one `delete_document` call: whether each guarded `os.remove`
raises, and whether the metadata write in `_save_metadata` succeeds. -/
structure DeleteEnv where
  vsRemoveRaises : Bool
  srcRemoveRaises : Bool
  saveOk : Bool
  deriving Repr, DecidableEq

/-- The known-id path of `DocumentHandler.delete_document` (document_handler.py
lines 135-147).  Each `os.remove` is attempted only on an existing path; an
exception from either remove is caught by the method's handler and turned into
`False`, leaving the registry untouched; on the success path the record is
removed, the registry persisted (`_save_metadata` swallowing a failed write),
and `True` returned. -/
def deleteKnown (w : World) (filename : String) (info : DocInfo) (env : DeleteEnv) :
    Bool × World :=
  if info.vectorstore_path ∈ w.files ∧ env.vsRemoveRaises = true then (false, w)
  else if info.file_path ∈ fsRemove w.files info.vectorstore_path ∧
      env.srcRemoveRaises = true then
    (false, { w with files := fsRemove w.files info.vectorstore_path })
  else
    (true, saveMetadata
      ⟨dictErase w.docs filename, w.meta,
        fsRemove (fsRemove w.files info.vectorstore_path) info.file_path⟩ env.saveOk)

/-- Dispatch of `delete_document` on whether the id is known (line 131). -/
def delete_document (w : World) (filename : String) (env : DeleteEnv) :
    Bool × World :=
  match dictLookup w.docs filename with
  | none => (false, w)
  | some info => deleteKnown w filename info env

/-- A single quote character, for rendering Python list literals. -/
def pyQuote : String := String.singleton (Char.ofNat 39)

/-- Rendering of a Python list of strings, as interpolated into the `ValueError`
message at document_handler.py line 79. -/
def pyStrList (l : List String) : String :=
  "[" ++ String.intercalate ", " (l.map (fun s => pyQuote ++ s ++ pyQuote)) ++ "]"

/-- Message of the `ValueError` raised at document_handler.py line 79. -/
def notFoundMsg (available : List String) : String :=
  "Document not found. Available: " ++ pyStrList available

/-- Message of the `FileNotFoundError` raised at document_handler.py line 83. -/
def vsMissingMsg (f : String) : String :=
  "Vectorstore missing for document: " ++ f

/-- Whether the lowercase needle occurs in the lowercased haystack: first, a
leading-segment test on character lists. -/
def charsLeadWith : List Char → List Char → Bool
  | [], _ => true
  | _ :: _, [] => false
  | c :: p, d :: s => c == d && charsLeadWith p s

/-- Occurrence of `p` as a contiguous segment of the second list. -/
def charsWithin (p : List Char) : List Char → Bool
  | [] => p.isEmpty
  | c :: t => charsLeadWith p (c :: t) || charsWithin p t

/-- Python `sub in s.lower()` for a lowercase literal `sub`. -/
def lowerContains (s sub : String) : Bool :=
  charsWithin sub.toList (s.toLower.toList)

/-- Response of the `/query` endpoint: the success body or an `HTTPException`
with its status code and detail. -/
inductive HttpResult
  | ok (question answer : String) (sources : List SourceEntry) (filename : Option String)
  | err (status : Nat) (detail : String)
  deriving Repr, DecidableEq

/-- Python `str(HTTPException(status, detail))`: Starlette renders the exception
as the status code, a colon and the detail. -/
def strHttpExc (status : Nat) (detail : String) : String :=
  toString status ++ ": " ++ detail

/-- The `ValueError` arm of the endpoint's handler (main.py lines 103-111).  The
`eval` branch for messages starting with a brace is never taken, since no message
raised in this codebase starts with one, so `error_dict` is `{"error": str(e)}`
and the classification inspects the lowercased message. -/
def mapValueError (m : String) : HttpResult :=
  if lowerContains m "quota exceeded" then .err 429 m
  else if lowerContains m "authentication" then .err 401 m
  else .err 503 m

/-- The `/query` endpoint `query_document` of main.py (lines 83-114).  The
`HTTPException(400)` raised for a blank question inside the `try` block is caught
by the endpoint's own final `except Exception` handler, which re-raises it as a
500 whose detail embeds the stringified 400 exception; a raised `ValueError` is
classified into 429/401/503; every other exception becomes a 500. -/
def queryEndpoint (w : World) (question : String) (filename : Option String)
    (rag : RagOutcome) : HttpResult × World :=
  if pyStrip question = "" then
    (.err 500 ("Error querying document: " ++ strHttpExc 400 "Question cannot be empty"), w)
  else
    let r := query_document w filename rag
    match r.1 with
    | .ok ans srcs _doc => (.ok question ans srcs filename, r.2)
    | .raisedNotFound avail => (mapValueError (notFoundMsg avail), r.2)
    | .raisedValueError m => (mapValueError m, r.2)
    | .raisedFileNotFound f =>
        (.err 500 ("Error querying document: " ++ vsMissingMsg f), r.2)
    | .raisedOther m => (.err 500 ("Error querying document: " ++ m), r.2)

/-- A concrete chunk longer than fifty characters, used in concrete runs. -/
def bigChunk : String :=
  "This sample chunk of extracted text is comfortably longer than fifty characters."

/-- A process environment in which every external step succeeds. -/
def okEnv : ProcessEnv := ⟨"sample text", fun _ => [bigChunk], .ok, true⟩

/-- The record produced by a successful one-chunk processing of `A.pdf`. -/
def infoA : DocInfo :=
  ⟨"uploaded_files/A.pdf", "vectorstore/A.pdf_vectorstore.pkl", 1, "processed"⟩

/-- A handler holding `A.pdf`, with both its artifacts present on disk. -/
def wFull : World :=
  ⟨[("A.pdf", infoA)], [("A.pdf", infoA)],
   ["vectorstore/A.pdf_vectorstore.pkl", "uploaded_files/A.pdf"]⟩

/-- A handler holding a record for `A.pdf` whose index artifact is absent. -/
def wMissing : World := ⟨[("A.pdf", infoA)], [], []⟩

/-- A fully successful processing of `A.pdf` from a fresh handler. -/
def wA : World := (process_document initialWorld "uploaded_files/A.pdf" "A.pdf" okEnv).2

/-- Then a fully successful processing of `B.pdf`. -/
def wAB : World := (process_document wA "uploaded_files/B.pdf" "B.pdf" okEnv).2

/-- Then a fully successful re-processing of `A.pdf`. -/
def wABA : World := (process_document wAB "uploaded_files/A.pdf" "A.pdf" okEnv).2

/-- A process environment whose embedding call hits an authentication failure. -/
def authEnv : ProcessEnv := ⟨"sample text", fun _ => [bigChunk], .authError, true⟩

/-- A process environment whose vectorstore build fails with an unclassified
exception. -/
def badEnv : ProcessEnv := ⟨"sample text", fun _ => [bigChunk], .otherExc, true⟩

/-- A process environment in which the build succeeds but the metadata write
fails. -/
def nosaveEnv : ProcessEnv := ⟨"sample text", fun _ => [bigChunk], .ok, false⟩

/-- A process environment whose extraction yields whitespace-only text. -/
def blankEnv : ProcessEnv := ⟨"  \n ", fun t => [t], .ok, true⟩

/-- A delete environment in which every external step succeeds. -/
def okDel : DeleteEnv := ⟨false, false, true⟩

theorem saveMetadata_docs (w : World) (b : Bool) : (saveMetadata w b).docs = w.docs := by
  cases b <;> simp [saveMetadata]

theorem dictKeys_dictInsert_of_none (d : Registry) (k : String) (v : DocInfo)
    (h : dictLookup d k = none) : dictKeys (dictInsert d k v) = dictKeys d ++ [k] := by
  induction d with
  | nil => simp [dictInsert, dictKeys]
  | cons p rest ih =>
      obtain ⟨k2, v2⟩ := p
      by_cases hk : k2 = k
      · simp [dictLookup, hk] at h
      · have h2 : dictLookup rest k = none := by simpa [dictLookup, hk] using h
        simp [dictInsert, dictKeys, hk] at ih ⊢
        exact ih h2

theorem dictKeys_dictInsert_of_some (d : Registry) (k : String) (v : DocInfo)
    (h : dictLookup d k ≠ none) : dictKeys (dictInsert d k v) = dictKeys d := by
  induction d with
  | nil => simp [dictLookup] at h
  | cons p rest ih =>
      obtain ⟨k2, v2⟩ := p
      by_cases hk : k2 = k
      · simp [dictInsert, dictKeys, hk]
      · have h2 : dictLookup rest k ≠ none := by simpa [dictLookup, hk] using h
        simp [dictInsert, dictKeys, hk] at ih ⊢
        exact ih h2

theorem process_document_success_docs (w : World) (fp f : String) (env : ProcessEnv)
    (h : (process_document w fp f env).1 = .success) :
    (process_document w fp f env).2.docs =
      dictInsert w.docs f ⟨fp, vectorstorePathFor f,
        (load_and_split env.rawSplit env.extractedText).length, "processed"⟩ := by
  unfold process_document at h ⊢
  by_cases he : (load_and_split env.rawSplit env.extractedText).isEmpty = true
  · simp [he] at h
  · rcases hv : create_vectorstore env.vs with _ | _ | m <;>
      simp [he, hv, saveMetadata_docs] at h ⊢

theorem process_document_not_success (w : World) (fp f : String) (env : ProcessEnv)
    (h : (process_document w fp f env).1 ≠ .success) :
    (process_document w fp f env).2 = w := by
  unfold process_document at h ⊢
  by_cases he : (load_and_split env.rawSplit env.extractedText).isEmpty = true
  · simp [he]
  · rcases hv : create_vectorstore env.vs with _ | _ | m <;> simp [he, hv] at h ⊢

/-- C1 (amended): a query with no explicit document id targets the most recently
inserted key of the registry.  A successful `process_document` of an id not yet
in the registry appends it, making it the new default target; a successful
re-process of an already-present id updates its record in place and leaves the
key order — hence the default resolution — unchanged; a `process_document` call
that does not return success leaves the whole state unchanged. -/
theorem C1_default_query_resolution :
    (∀ docs : Registry, docs ≠ [] →
        resolveTarget docs none = (dictKeys docs).getLast?) ∧
    (∀ (w : World) (fp f : String) (env : ProcessEnv),
        (process_document w fp f env).1 = .success →
        dictLookup w.docs f = none →
        dictKeys (process_document w fp f env).2.docs = dictKeys w.docs ++ [f]) ∧
    (∀ (w : World) (fp f : String) (env : ProcessEnv),
        (process_document w fp f env).1 = .success →
        dictLookup w.docs f ≠ none →
        dictKeys (process_document w fp f env).2.docs = dictKeys w.docs) ∧
    (∀ (w : World) (fp f : String) (env : ProcessEnv),
        (process_document w fp f env).1 ≠ .success →
        (process_document w fp f env).2 = w) := by
  refine ⟨?_, ?_, ?_, ?_⟩
  · intro docs hd
    cases docs with
    | nil => exact absurd rfl hd
    | cons p rest => simp [resolveTarget, pyTruthy]
  · intro w fp f env hs hn
    rw [process_document_success_docs w fp f env hs]
    exact dictKeys_dictInsert_of_none _ _ _ hn
  · intro w fp f env hs hn
    rw [process_document_success_docs w fp f env hs]
    exact dictKeys_dictInsert_of_some _ _ _ hn
  · exact process_document_not_success

/-- Witness for `C1_default_query_resolution` at concrete inputs. -/
theorem C1_default_query_resolution_witness :
    resolveTarget wA.docs none = (dictKeys wA.docs).getLast? ∧
    dictKeys (process_document wA "uploaded_files/B.pdf" "B.pdf" okEnv).2.docs
      = dictKeys wA.docs ++ ["B.pdf"] ∧
    dictKeys (process_document wAB "uploaded_files/A.pdf" "A.pdf" okEnv).2.docs
      = dictKeys wAB.docs ∧
    (process_document wAB "uploaded_files/C.pdf" "C.pdf" badEnv).2 = wAB :=
  ⟨C1_default_query_resolution.1 wA.docs (by decide),
   C1_default_query_resolution.2.1 wA "uploaded_files/B.pdf" "B.pdf" okEnv
     (by decide) (by decide),
   C1_default_query_resolution.2.2.1 wAB "uploaded_files/A.pdf" "A.pdf" okEnv
     (by decide) (by decide),
   C1_default_query_resolution.2.2.2 wAB "uploaded_files/C.pdf" "C.pdf" badEnv
     (by decide)⟩

/-- C1 fails as stated: after successfully processing `A.pdf`, then `B.pdf`,
then successfully re-processing `A.pdf` (already present in the registry), a
query with no explicit document id resolves to `B.pdf`, not to the most recently
successfully processed document `A.pdf` — a Python dict assignment to an
existing key leaves that key's position in the insertion order unchanged. -/
theorem C1_counterexample :
    (process_document wAB "uploaded_files/A.pdf" "A.pdf" okEnv).1 = .success ∧
    (query_document wABA none (.retrieved "ans" [bigChunk])).1 =
      .ok "ans" [⟨bigChunk⟩] "B.pdf" ∧
    "B.pdf" ≠ "A.pdf" := by decide

/-- C2: an authentication failure from the embedding provider while
`process_document` builds the index is propagated as the classified
provider-authentication `ValueError` — not returned as boolean false — and the
state (registry, metadata artifact, files) is unchanged, so no record is
inserted or persisted for the document. -/
theorem C2_auth_error_propagates (w : World) (fp f : String) (env : ProcessEnv)
    (hvs : env.vs = VsOutcome.authError)
    (hch : load_and_split env.rawSplit env.extractedText ≠ []) :
    process_document w fp f env = (.raisedValueError authFailMsg, w) ∧
    ProcessResult.raisedValueError authFailMsg ≠ ProcessResult.failure := by
  refine ⟨?_, by simp⟩
  unfold process_document
  rw [hvs]
  simp [create_vectorstore, hch]

/-- Witness for `C2_auth_error_propagates` at a concrete input. -/
theorem C2_auth_error_propagates_witness :
    process_document initialWorld "uploaded_files/A.pdf" "A.pdf" authEnv
      = (.raisedValueError authFailMsg, initialWorld) ∧
    ProcessResult.raisedValueError authFailMsg ≠ ProcessResult.failure :=
  C2_auth_error_propagates initialWorld "uploaded_files/A.pdf" "A.pdf" authEnv
    rfl (by decide)

/-- C3 (exhibiting the divergence at the failing input): for a whitespace-only
question the `/query` endpoint responds with status 500, not 400 — the
`HTTPException(400, "Question cannot be empty")` raised inside the `try` block
is caught by the endpoint's own final `except Exception` handler and re-raised
as a 500 wrapping the stringified 400 exception. -/
theorem C3_blank_question_gives_500 (w : World) (filename : Option String)
    (rag : RagOutcome) :
    (queryEndpoint w "   " filename rag).1 =
      .err 500 ("Error querying document: " ++ strHttpExc 400 "Question cannot be empty") :=
  rfl

/-- C4: when a document has a record in the registry but its vectorstore
artifact is absent from storage, `query_document` raises the distinct
`FileNotFoundError` — whatever the provider call would have produced, so the
failure is raised before any provider call and is not a generic one — and the
state is unchanged. -/
theorem C4_missing_index_distinct_error (w : World) (f : String) (info : DocInfo)
    (rag : RagOutcome) (hf : f ≠ "")
    (hlook : dictLookup w.docs f = some info)
    (hfile : info.vectorstore_path ∉ w.files) :
    query_document w (some f) rag = (.raisedFileNotFound f, w) := by
  obtain ⟨d, m, fl⟩ := w
  cases d with
  | nil => simp [dictLookup] at hlook
  | cons p rest =>
    show queryLoaded ⟨p :: rest, m, fl⟩ (some f) rag = _
    have ht : resolveTarget (p :: rest) (some f) = some f := by
      simp [resolveTarget, pyTruthy, hf]
    unfold queryLoaded
    rw [ht]
    simp only at hlook hfile
    simp [hf, hlook, hfile]

/-- Witness for `C4_missing_index_distinct_error` at a concrete input. -/
theorem C4_missing_index_distinct_error_witness :
    query_document wMissing (some "A.pdf") .authError
      = (.raisedFileNotFound "A.pdf", wMissing) :=
  C4_missing_index_distinct_error wMissing "A.pdf" infoA .authError
    (by decide) (by decide) (by decide)

/-- C5: a successful `RAGChain.query` maps each retrieved chunk to a
caller-facing source entry whose content is the chunk text itself when it has at
most 200 characters and its first 200 characters followed by an ellipsis
otherwise; consequently every entry has at most 203 characters and the full text
of an over-long chunk is never returned. -/
theorem C5_sources_truncated (ans : String) (docs : List String) :
    ragQuery (.retrieved ans docs) = .ok ans (docs.map (fun c => ⟨truncateSource c⟩)) ∧
    (∀ c : String, truncateSource c =
      if c.length ≤ 200 then c else String.mk (c.toList.take 200) ++ "...") ∧
    (docs.map (fun c => truncateSource c)).all
      (fun s => decide (s.length ≤ 203)) = true := by
  refine ⟨rfl, ?_, ?_⟩
  · intro c
    by_cases h : c.length ≤ 200
    · rw [if_pos h, truncateSource, if_neg (by omega)]
    · rw [if_neg h, truncateSource, if_pos (by omega)]
  · rw [List.all_eq_true]
    intro s hs
    rw [List.mem_map] at hs
    obtain ⟨c, hc, rfl⟩ := hs
    rw [decide_eq_true_iff]
    unfold truncateSource
    by_cases h : c.length > 200
    · rw [if_pos h]
      have hlen : (String.mk (c.toList.take 200) ++ "...").length
          = (c.toList.take 200).length + 3 := by
        show ((c.toList.take 200) ++ "...".data).length = _
        rw [List.length_append]
        rfl
      have htake : (c.toList.take 200).length ≤ 200 := by
        rw [List.length_take]
        exact Nat.min_le_left _ _
      omega
    · rw [if_neg h]
      omega

/-- C6: every chunk in the output of the chunker — both of
`split_text_into_chunks` itself and of `load_and_split`, whose output is exactly
what `process_document` hands to the index builder — has trimmed length strictly
greater than 50: shorter segments are filtered out and never reach a built
index. -/
theorem C6_short_chunks_filtered (rawSplit : String → List String) (text : String) :
    (split_text_into_chunks rawSplit text).all
      (fun c => decide ((pyStrip c).length > 50)) = true ∧
    (load_and_split rawSplit text).all
      (fun c => decide ((pyStrip c).length > 50)) = true := by
  have h1 : (split_text_into_chunks rawSplit text).all
      (fun c => decide ((pyStrip c).length > 50)) = true := by
    rw [List.all_eq_true]
    intro c hc
    rw [split_text_into_chunks, List.mem_filter] at hc
    exact hc.2
  refine ⟨h1, ?_⟩
  unfold load_and_split
  by_cases hb : pyStrip text = ""
  · simp [hb]
  · rw [if_neg hb]
    by_cases he : (split_text_into_chunks rawSplit text).isEmpty = true
    · simp [he]
    · simp only [he, if_false, Bool.false_eq_true]
      exact h1

/-- C7: when extraction yields empty or whitespace-only text the chunker returns
the empty sequence (a value, not an error), and `process_document` then returns
failure with the state untouched — no record inserted, nothing persisted. -/
theorem C7_blank_extraction (w : World) (fp f : String) (env : ProcessEnv)
    (hblank : pyStrip env.extractedText = "") :
    load_and_split env.rawSplit env.extractedText = [] ∧
    process_document w fp f env = (.failure, w) := by
  have h1 : load_and_split env.rawSplit env.extractedText = [] := by
    unfold load_and_split
    rw [if_pos hblank]
  refine ⟨h1, ?_⟩
  unfold process_document
  rw [h1]
  simp

/-- Witness for `C7_blank_extraction` at a concrete input. -/
theorem C7_blank_extraction_witness :
    load_and_split blankEnv.rawSplit blankEnv.extractedText = [] ∧
    process_document initialWorld "uploaded_files/A.pdf" "A.pdf" blankEnv
      = (.failure, initialWorld) :=
  C7_blank_extraction initialWorld "uploaded_files/A.pdf" "A.pdf" blankEnv (by decide)

/-- C8: `delete_document` returns false and changes nothing when the id is
unknown; for a known id, when neither guarded remove raises (an already-missing
artifact is simply skipped, not an error) and the metadata write succeeds, it
removes the index artifact and the original source artifact, removes the record,
persists the registry, and returns true. -/
theorem C8_delete_contract (w : World) (f : String) (env : DeleteEnv)
    (hvs : env.vsRemoveRaises = false) (hsrc : env.srcRemoveRaises = false)
    (hsave : env.saveOk = true) :
    (dictLookup w.docs f = none → delete_document w f env = (false, w)) ∧
    (∀ info : DocInfo, dictLookup w.docs f = some info →
      delete_document w f env =
        (true, ⟨dictErase w.docs f, dictErase w.docs f,
          fsRemove (fsRemove w.files info.vectorstore_path) info.file_path⟩)) := by
  constructor
  · intro h
    unfold delete_document
    rw [h]
  · intro info h
    unfold delete_document
    rw [h]
    show deleteKnown w f info env = _
    unfold deleteKnown
    rw [if_neg (by simp [hvs])]
    rw [if_neg (by simp [hsrc])]
    simp [saveMetadata, hsave]

/-- Witness for `C8_delete_contract` at concrete inputs: an unknown id and a
known id whose two artifacts are both on disk. -/
theorem C8_delete_contract_witness :
    delete_document wFull "Z.pdf" okDel = (false, wFull) ∧
    delete_document wFull "A.pdf" okDel =
      (true, ⟨dictErase wFull.docs "A.pdf", dictErase wFull.docs "A.pdf",
        fsRemove (fsRemove wFull.files infoA.vectorstore_path) infoA.file_path⟩) :=
  ⟨(C8_delete_contract wFull "Z.pdf" okDel rfl rfl rfl).1 (by decide),
   (C8_delete_contract wFull "A.pdf" okDel rfl rfl rfl).2 infoA (by decide)⟩

/-- C9: when the index build succeeds but the metadata write raises,
`process_document` still returns success; the new record exists only in the
in-memory registry, the metadata artifact on disk is unchanged, and the caller
cannot observe the lost persistence. -/
theorem C9_persist_failure_swallowed (w : World) (fp f : String) (env : ProcessEnv)
    (hvs : env.vs = VsOutcome.ok) (hsave : env.saveOk = false)
    (hch : load_and_split env.rawSplit env.extractedText ≠ []) :
    process_document w fp f env =
      (.success,
        ⟨dictInsert w.docs f ⟨fp, vectorstorePathFor f,
            (load_and_split env.rawSplit env.extractedText).length, "processed"⟩,
          w.meta,
          fsAdd w.files (vectorstorePathFor f)⟩) := by
  unfold process_document
  rw [hvs]
  simp [create_vectorstore, hch, saveMetadata, hsave]

/-- Witness for `C9_persist_failure_swallowed` at a concrete input. -/
theorem C9_persist_failure_swallowed_witness :
    process_document initialWorld "uploaded_files/A.pdf" "A.pdf" nosaveEnv =
      (.success,
        ⟨dictInsert initialWorld.docs "A.pdf" ⟨"uploaded_files/A.pdf",
            vectorstorePathFor "A.pdf",
            (load_and_split nosaveEnv.rawSplit nosaveEnv.extractedText).length,
            "processed"⟩,
          initialWorld.meta,
          fsAdd initialWorld.files (vectorstorePathFor "A.pdf")⟩) :=
  C9_persist_failure_swallowed initialWorld "uploaded_files/A.pdf" "A.pdf" nosaveEnv
    rfl rfl (by decide)

/-- C10: for a known id, if a guarded `os.remove` raises during
`delete_document`, the call returns false and the record remains in the
registry, with nothing persisted — although the vectorstore artifact removed
earlier in the same call may already be gone when the second remove fails. -/
theorem C10_delete_remove_failure (w : World) (f : String) (info : DocInfo)
    (env : DeleteEnv) (hlook : dictLookup w.docs f = some info) :
    (info.vectorstore_path ∈ w.files → env.vsRemoveRaises = true →
      delete_document w f env = (false, w)) ∧
    (¬ (info.vectorstore_path ∈ w.files ∧ env.vsRemoveRaises = true) →
      info.file_path ∈ fsRemove w.files info.vectorstore_path →
      env.srcRemoveRaises = true →
      delete_document w f env =
        (false, ⟨w.docs, w.meta, fsRemove w.files info.vectorstore_path⟩)) := by
  constructor
  · intro h1 h2
    unfold delete_document
    rw [hlook]
    show deleteKnown w f info env = _
    unfold deleteKnown
    rw [if_pos ⟨h1, h2⟩]
  · intro h1 h2 h3
    unfold delete_document
    rw [hlook]
    show deleteKnown w f info env = _
    unfold deleteKnown
    rw [if_neg h1, if_pos ⟨h2, h3⟩]

/-- Witness for `C10_delete_remove_failure` at concrete inputs: the first remove
raising, and the second remove raising after the first artifact is gone. -/
theorem C10_delete_remove_failure_witness :
    delete_document wFull "A.pdf" ⟨true, false, true⟩ = (false, wFull) ∧
    delete_document wFull "A.pdf" ⟨false, true, true⟩ =
      (false, ⟨wFull.docs, wFull.meta, fsRemove wFull.files infoA.vectorstore_path⟩) :=
  ⟨(C10_delete_remove_failure wFull "A.pdf" infoA ⟨true, false, true⟩ (by decide)).1
     (by decide) rfl,
   (C10_delete_remove_failure wFull "A.pdf" infoA ⟨false, true, true⟩ (by decide)).2
     (by decide) (by decide) rfl⟩
